import Mathlib

set_option maxHeartbeats 1000000

/-!
Shallow embedding of `src/services/or_tools_vrp_solver.py`.

The Python script builds a CVRPTW data model from a JSON request, registers
cost/resource callbacks and route-pinning constraints with the OR-Tools routing
engine, invokes the search, and decodes the resulting assignment (or failure)
into a `{routes, dropped_node_indices}` response.

The OR-Tools engine itself is an external collaborator: it is modelled here as
an opaque input (`Option (List (List Nat))`), namely the per-vehicle node walks
obtained by following `solution.Value(routing.NextVar(...))` from each vehicle
start until `routing.IsEnd`, with `manager.IndexToNode` applied (so each walk is
a list of original node indices beginning with the depot), or `none` when the
engine returns no assignment.  `manager.NodeToIndex` is injective on the single
depot setting used here and never returns `-1` for in-range nodes, so node
indices are used directly.  Python floats are modelled as exact rationals.
-/

/-- Python's builtin `round`: round half to even (banker's rounding), applied to
the exact rational value of the argument. -/
def pround (q : ℚ) : Int :=
  if q - (⌊q⌋ : ℚ) < 1/2 then ⌊q⌋
  else if 1/2 < q - (⌊q⌋ : ℚ) then ⌊q⌋ + 1
  else if ⌊q⌋ % 2 = 0 then ⌊q⌋ else ⌊q⌋ + 1

/-- Entry lookup `m[i][j]` on a list-of-lists matrix; `none` corresponds to a
Python `IndexError`. -/
def mentry (m : List (List Int)) (i j : Nat) : Option Int :=
  (m.get? i).bind fun row => row.get? j

/-- The raw JSON request, already parsed (field types follow what the script
reads out of `input_data`; optional fields are `Option`). -/
structure InputData where
  distance_matrix : List (List (Option ℚ))
  duration_matrix : Option (List (List (Option ℚ)))
  demands : List Int
  vehicle_capacities : List Int
  num_vehicles : Nat
  depot_index : Nat
  max_route_duration : Option ℚ
  service_times : Option (List (Option ℚ))
  allow_dropping_visits : Bool
  drop_visit_penalty : Int
  trip_type : String
  direction_penalty_weight : ℚ
  fixed_start_node_index_in_matrix : Option Int
  fixed_end_node_index_in_matrix : Option Int
  other_customer_node_indices_in_matrix : Option (List Int)
deriving DecidableEq

/-- The normalized data model produced by `create_data_model` (the `data`
dict). -/
structure DataModel where
  distance_matrix : List (List Int)
  duration_matrix : List (List Int)
  demands : List Int
  vehicle_capacities : List Int
  num_vehicles : Nat
  depot : Nat
  max_route_duration : Option Int
  service_times : List Int
  allow_dropping_visits : Bool
  drop_visit_penalty : Int
  trip_type : String
  direction_penalty_weight : ℚ
  fixed_start_node_index_in_matrix : Option Int
  fixed_end_node_index_in_matrix : Option Int
  other_customer_node_indices_in_matrix : Option (List Int)
deriving DecidableEq

/-- The distinct `raise ValueError(...)` sites of `create_data_model`. -/
inductive VrpError where
  | distanceMatrixNotSquare
  | demandsLengthMismatch
  | serviceTimesLengthMismatch
  | vehicleCapacitiesLengthMismatch
  | invalidFixedStartNodeIndex
  | invalidFixedEndNodeIndex
  | invalidOtherCustomerNodeIndex
  | emptyDistanceMatrix
  | zeroVehiclesWithLocations
deriving DecidableEq

/-- The dict returned by `solve_cvrptw` (the early-return error cases carry an
`"error"` key; the normal return at the end of the function does not). -/
structure SolveResult where
  routes : List (List Nat)
  dropped_node_indices : List Nat
  error : Option VrpError
deriving DecidableEq

/-- Matrix normalization: `int(round(cost)) if cost is not None else 999999999`
applied entry-wise (`large_penalty_int` in the script). -/
def normalize_matrix (m : List (List (Option ℚ))) : List (List Int) :=
  m.map (fun row => row.map (fun cost =>
    match cost with
    | some c => pround c
    | none => 999999999))

/-- Python `str.upper()` as used on `trip_type` (characterwise uppercase;
structural recursion so that concrete values evaluate in the kernel). -/
def py_upper (s : String) : String := String.mk (s.data.map Char.toUpper)

/-- The record assembled by `create_data_model` before its validation block
(field-by-field translation of the assignments into `data`). -/
def mk_data_model (input : InputData) : DataModel :=
  { distance_matrix := normalize_matrix input.distance_matrix
    duration_matrix := normalize_matrix (input.duration_matrix.getD input.distance_matrix)
    demands := input.demands
    vehicle_capacities := input.vehicle_capacities
    num_vehicles := input.num_vehicles
    depot := input.depot_index
    max_route_duration := input.max_route_duration.map pround
    service_times :=
      (input.service_times.getD (List.replicate input.demands.length (some 0))).map
        (fun st => match st with | some s => pround s | none => 0)
    allow_dropping_visits := input.allow_dropping_visits
    drop_visit_penalty := input.drop_visit_penalty
    trip_type := py_upper input.trip_type
    direction_penalty_weight := input.direction_penalty_weight
    fixed_start_node_index_in_matrix := input.fixed_start_node_index_in_matrix
    fixed_end_node_index_in_matrix := input.fixed_end_node_index_in_matrix
    other_customer_node_indices_in_matrix := input.other_customer_node_indices_in_matrix }

/-- The range test `0 <= idx < num_locations` applied to an optional index
(`none` passes: the script only validates indices that are not `None`). -/
def opt_index_ok (num_locations : Nat) : Option Int → Prop
  | none => True
  | some s => 0 ≤ s ∧ s < (num_locations : Int)

instance (num_locations : Nat) : (o : Option Int) → Decidable (opt_index_ok num_locations o)
  | none => isTrue trivial
  | some s => inferInstanceAs (Decidable (0 ≤ s ∧ s < (num_locations : Int)))

/-- `create_data_model`: builds the data model and runs the validation block,
raising (here: returning) the first applicable `ValueError`.  The non-fatal
depot warning and the `num_vehicles != 1` warnings are log-only in the script
and do not affect the result. -/
def create_data_model (input : InputData) : Except VrpError DataModel :=
  if 0 < (mk_data_model input).distance_matrix.length ∧
      ¬ ∀ row ∈ (mk_data_model input).distance_matrix,
          row.length = (mk_data_model input).distance_matrix.length then
    Except.error VrpError.distanceMatrixNotSquare
  else if 0 < (mk_data_model input).distance_matrix.length ∧
      (mk_data_model input).demands.length ≠ (mk_data_model input).distance_matrix.length then
    Except.error VrpError.demandsLengthMismatch
  else if 0 < (mk_data_model input).distance_matrix.length ∧
      (mk_data_model input).service_times.length ≠ (mk_data_model input).distance_matrix.length then
    Except.error VrpError.serviceTimesLengthMismatch
  else if 0 < (mk_data_model input).num_vehicles ∧
      (mk_data_model input).vehicle_capacities.length ≠ (mk_data_model input).num_vehicles then
    Except.error VrpError.vehicleCapacitiesLengthMismatch
  else if ¬ opt_index_ok (mk_data_model input).distance_matrix.length
      (mk_data_model input).fixed_start_node_index_in_matrix then
    Except.error VrpError.invalidFixedStartNodeIndex
  else if ¬ opt_index_ok (mk_data_model input).distance_matrix.length
      (mk_data_model input).fixed_end_node_index_in_matrix then
    Except.error VrpError.invalidFixedEndNodeIndex
  else if (mk_data_model input).fixed_end_node_index_in_matrix.isSome = true ∧
      ¬ ∀ idx ∈ (mk_data_model input).other_customer_node_indices_in_matrix.getD [],
          0 ≤ idx ∧ idx < ((mk_data_model input).distance_matrix.length : Int) then
    Except.error VrpError.invalidOtherCustomerNodeIndex
  else
    Except.ok (mk_data_model input)

/-- The conditions under which `create_data_model` raises no `ValueError`
(complement of every validation branch above). -/
def valid_input (input : InputData) : Prop :=
  (0 < (mk_data_model input).distance_matrix.length →
    (∀ row ∈ (mk_data_model input).distance_matrix,
        row.length = (mk_data_model input).distance_matrix.length) ∧
    (mk_data_model input).demands.length = (mk_data_model input).distance_matrix.length ∧
    (mk_data_model input).service_times.length = (mk_data_model input).distance_matrix.length) ∧
  (0 < (mk_data_model input).num_vehicles →
    (mk_data_model input).vehicle_capacities.length = (mk_data_model input).num_vehicles) ∧
  opt_index_ok (mk_data_model input).distance_matrix.length
    (mk_data_model input).fixed_start_node_index_in_matrix ∧
  opt_index_ok (mk_data_model input).distance_matrix.length
    (mk_data_model input).fixed_end_node_index_in_matrix ∧
  ((mk_data_model input).fixed_end_node_index_in_matrix.isSome = true →
    ∀ idx ∈ (mk_data_model input).other_customer_node_indices_in_matrix.getD [],
      0 ≤ idx ∧ idx < ((mk_data_model input).distance_matrix.length : Int))

instance (input : InputData) : Decidable (valid_input input) := by
  unfold valid_input; infer_instance

/-- The `penalty` computed inside `distance_with_direction_penalty_callback`
(lines 176-205): zero unless both endpoints are non-depot and the weight is
positive; the depot-distance lookups sit in a `try`/`except IndexError` block,
so a failed lookup leaves the penalty at zero. -/
def direction_penalty (dm : DataModel) (from_node to_node : Nat) : ℚ :=
  if from_node ≠ dm.depot ∧ to_node ≠ dm.depot ∧ 0 < dm.direction_penalty_weight then
    match mentry dm.distance_matrix from_node dm.depot,
          mentry dm.distance_matrix to_node dm.depot with
    | some dist_from_to_depot, some dist_to_to_depot =>
      if dm.trip_type = "PICKUP" then
        if 0 < dist_to_to_depot - dist_from_to_depot then
          dm.direction_penalty_weight * ((dist_to_to_depot - dist_from_to_depot : Int) : ℚ)
        else 0
      else if dm.trip_type = "DROPOFF" then
        if 0 < dist_from_to_depot - dist_to_to_depot then
          dm.direction_penalty_weight * ((dist_from_to_depot - dist_to_to_depot : Int) : ℚ)
        else 0
      else 0
    | _, _ => 0
  else 0

/-- The arc-cost callback registered via `SetArcCostEvaluatorOfAllVehicles`:
out-of-range node indices yield `data_model.get("large_penalty_int", 999999999)`
(the key is never stored, so the default applies); otherwise
`int(round(travel_distance + penalty))`.  Validation guarantees a square
matrix, so the unguarded `distance_matrix[from_node][to_node]` lookup cannot
fail on validated models (`getD 0` is never the default there). -/
def distance_with_direction_penalty_callback (dm : DataModel) (from_node to_node : Nat) : Int :=
  if ¬ (from_node < dm.distance_matrix.length ∧ to_node < dm.distance_matrix.length) then
    999999999
  else
    pround (((mentry dm.distance_matrix from_node to_node).getD 0 : ℚ)
      + direction_penalty dm from_node to_node)

/-- The unary demand callback for the `Capacity` dimension: out-of-range index
returns the literal `999999`; otherwise `demands[from_node]`. -/
def demand_callback (dm : DataModel) (from_node : Nat) : Int :=
  if ¬ (from_node < dm.demands.length) then 999999
  else dm.demands.getD from_node 0

/-- The transit callback for the `MaxDuration` dimension: out-of-range index
returns `data_model.get("large_penalty_int", 999999999)` (key absent, default
applies); otherwise `service_times[from_node] + duration_matrix[from_node][to_node]`. -/
def service_plus_travel_for_dimension_callback (dm : DataModel) (from_node to_node : Nat) : Int :=
  if ¬ (from_node < dm.distance_matrix.length ∧ to_node < dm.distance_matrix.length) then
    999999999
  else
    dm.service_times.getD from_node 0 + (mentry dm.duration_matrix from_node to_node).getD 0

/-- One hard constraint posted through `routing.solver().Add(...)` in the
route-pinning block: an equality or disequality on `NextVar`, or an equality on
`VehicleVar` (all node arguments are original node indices). -/
inductive PinConstraint where
  | nextEq (a b : Nat) : PinConstraint
  | nextNe (a b : Nat) : PinConstraint
  | vehicleEq (a : Nat) (v : Nat) : PinConstraint
deriving DecidableEq

/-- The route-pinning constraint block of `solve_cvrptw` (lines 216-273), as
the ordered list of constraints posted to the solver.  `vehicle_id_for_reopt`
is 0.  An out-of-range fixed index is logged and skipped; an out-of-range or
duplicate entry of `other_customer_node_indices_in_matrix` is skipped with
`continue`. -/
def build_pinning_constraints (dm : DataModel) : List PinConstraint :=
  match dm.fixed_start_node_index_in_matrix with
  | some s =>
    if 0 ≤ s ∧ s < (dm.distance_matrix.length : Int) then
      [PinConstraint.nextEq dm.depot s.toNat,
       PinConstraint.vehicleEq s.toNat 0,
       PinConstraint.vehicleEq dm.depot 0]
    else []
  | none =>
    match dm.fixed_end_node_index_in_matrix with
    | some e =>
      if 0 ≤ e ∧ e < (dm.distance_matrix.length : Int) then
        [PinConstraint.nextEq e.toNat dm.depot,
         PinConstraint.vehicleEq e.toNat 0,
         PinConstraint.vehicleEq dm.depot 0]
        ++ ((dm.other_customer_node_indices_in_matrix.getD []).map (fun idx =>
              if 0 ≤ idx ∧ idx < (dm.distance_matrix.length : Int) ∧ idx ≠ e then
                [PinConstraint.nextNe idx.toNat dm.depot,
                 PinConstraint.vehicleEq idx.toNat 0]
              else [])).join
      else []
    | none => []

/-- Customers collected across all walks: each vehicle's walk with the depot
entries removed, concatenated in vehicle order. -/
def served_customers (dm : DataModel) (walks : List (List Nat)) : List Nat :=
  (walks.map (fun w => w.filter (fun n => n ≠ dm.depot))).join

/-- Route extraction (lines 402-435): for each vehicle its walk minus the
depot, keeping only non-empty routes, in vehicle order. -/
def decode_routes (dm : DataModel) (walks : List (List Nat)) : List (List Nat) :=
  (walks.map (fun w => w.filter (fun n => n ≠ dm.depot))).filter (fun r => r ≠ [])

/-- Dropped-node extraction when a solution object exists (lines 447-488): only
runs when `allow_dropping_visits` is true; every non-depot node not contained
in any extracted route is appended (the fixed-node sub-branches differ only in
logging, both append). -/
def decode_dropped (dm : DataModel) (output_routes : List (List Nat)) : List Nat :=
  if dm.allow_dropping_visits then
    (List.range dm.distance_matrix.length).filter
      (fun i => decide (i ≠ dm.depot) && !(output_routes.any (fun r => decide (i ∈ r))))
  else []

/-- Decoding of an existing solution object into the final return value
(line 522: no `"error"` key). -/
def decode_solution (dm : DataModel) (walks : List (List Nat)) : SolveResult :=
  { routes := decode_routes dm walks
    dropped_node_indices := decode_dropped dm (decode_routes dm walks)
    error := none }

/-- The `else` branch when the engine returns no solution object
(lines 506-519): with dropping allowed, or with at least one customer, every
non-depot index is appended to `dropped_node_indices`. -/
def decode_no_solution (dm : DataModel) : SolveResult :=
  if dm.allow_dropping_visits then
    { routes := []
      dropped_node_indices :=
        (List.range dm.distance_matrix.length).filter (fun i => decide (i ≠ dm.depot))
      error := none }
  else if 1 < dm.distance_matrix.length then
    { routes := []
      dropped_node_indices :=
        (List.range dm.distance_matrix.length).filter (fun i => decide (i ≠ dm.depot))
      error := none }
  else
    { routes := [], dropped_node_indices := [], error := none }

/-- `solve_cvrptw` with the engine's answer supplied as an explicit argument
(`engine = some walks` when `routing.SolveWithParameters` produced a solution
object, `none` otherwise): the early guard returns for an empty matrix and for
zero vehicles with locations to visit, then the decoding of §395-522. -/
def solve_cvrptw (dm : DataModel) (engine : Option (List (List Nat))) : SolveResult :=
  if dm.distance_matrix.length = 0 then
    { routes := [], dropped_node_indices := [], error := some VrpError.emptyDistanceMatrix }
  else if dm.num_vehicles = 0 ∧ 1 < dm.distance_matrix.length then
    { routes := [], dropped_node_indices := [], error := some VrpError.zeroVehiclesWithLocations }
  else
    match engine with
    | some walks => decode_solution dm walks
    | none => decode_no_solution dm

/-- Minimal JSON value model for the shape of the response emitted through
`json.dumps`. -/
inductive JVal where
  | num (n : Int) : JVal
  | str (s : String) : JVal
  | arr (xs : List JVal) : JVal
  | obj (fields : List (String × JVal)) : JVal

/-- Whether a JSON value is an object. -/
def JVal.isObj : JVal → Bool
  | JVal.obj _ => true
  | _ => false

/-- Serialization of the solver's return value as produced by
`json.dumps(result)`: `routes` is a JSON array whose elements are the
per-vehicle node-index lists, each a bare JSON array of integers (line 435
appends the plain list `route_for_vehicle_original_indices`). -/
def encode_result (r : SolveResult) : JVal :=
  JVal.obj
    [("routes", JVal.arr (r.routes.map (fun route =>
        JVal.arr (route.map (fun n => JVal.num (n : Int)))))),
     ("dropped_node_indices", JVal.arr (r.dropped_node_indices.map (fun n => JVal.num (n : Int))))]

/-- Follows the wording of the specification (claim C1): the direction penalty
is 0 whenever `u` is the depot, `v` is the depot, or the weight is nonpositive;
otherwise for PICKUP it is `weight * (CostMatrix[v][depot] - CostMatrix[u][depot])`
when that difference is positive and 0 otherwise, and for DROPOFF symmetric
with the difference reversed.  (The specification only defines the penalty for
the two recognized trip types; theorems using this definition restrict the trip
type accordingly.) -/
def spec_direction_penalty (dm : DataModel) (u v : Nat) : ℚ :=
  if u = dm.depot ∨ v = dm.depot ∨ dm.direction_penalty_weight ≤ 0 then 0
  else
    if dm.trip_type = "PICKUP" then
      if 0 < (mentry dm.distance_matrix v dm.depot).getD 0
          - (mentry dm.distance_matrix u dm.depot).getD 0 then
        dm.direction_penalty_weight * (((mentry dm.distance_matrix v dm.depot).getD 0
          - (mentry dm.distance_matrix u dm.depot).getD 0 : Int) : ℚ)
      else 0
    else
      if 0 < (mentry dm.distance_matrix u dm.depot).getD 0
          - (mentry dm.distance_matrix v dm.depot).getD 0 then
        dm.direction_penalty_weight * (((mentry dm.distance_matrix u dm.depot).getD 0
          - (mentry dm.distance_matrix v dm.depot).getD 0 : Int) : ℚ)
      else 0

/-- Follows the wording of the specification (claim C1):
`arc_cost = round(base + penalty)` with `base = CostMatrix[u][v]`. -/
def spec_arc_cost (dm : DataModel) (u v : Nat) : Int :=
  pround (((mentry dm.distance_matrix u v).getD 0 : ℚ) + spec_direction_penalty dm u v)

/-- A concrete 3-location model (depot 0, customers 1 and 2) used for witness
evaluations. -/
def dm_ex : DataModel :=
  { distance_matrix := [[0, 10, 20], [10, 0, 5], [20, 5, 0]]
    duration_matrix := [[0, 10, 20], [10, 0, 5], [20, 5, 0]]
    demands := [0, 1, 1]
    vehicle_capacities := [10]
    num_vehicles := 1
    depot := 0
    max_route_duration := none
    service_times := [0, 0, 0]
    allow_dropping_visits := true
    drop_visit_penalty := 5000000
    trip_type := "PICKUP"
    direction_penalty_weight := 1
    fixed_start_node_index_in_matrix := none
    fixed_end_node_index_in_matrix := none
    other_customer_node_indices_in_matrix := none }

/-- `dm_ex` with visit dropping disallowed. -/
def dm_ex_nodrop : DataModel := { dm_ex with allow_dropping_visits := false }

/-- `dm_ex` with a fixed start node. -/
def dm_ex_pin : DataModel := { dm_ex with fixed_start_node_index_in_matrix := some 1 }

/-- A concrete 2-location request with every field valid. -/
def input_ex : InputData :=
  { distance_matrix := [[some 0, some 10], [some 10, some 0]]
    duration_matrix := none
    demands := [0, 1]
    vehicle_capacities := [5]
    num_vehicles := 1
    depot_index := 0
    max_route_duration := none
    service_times := none
    allow_dropping_visits := false
    drop_visit_penalty := 5000000
    trip_type := "pickup"
    direction_penalty_weight := 1
    fixed_start_node_index_in_matrix := none
    fixed_end_node_index_in_matrix := none
    other_customer_node_indices_in_matrix := none }

/-- `input_ex` with the fixed start index equal to the depot index 0. -/
def input_fixed_start_depot : InputData :=
  { input_ex with fixed_start_node_index_in_matrix := some 0 }

/-- `input_ex` with a trip type whose upper-cased form is neither PICKUP nor
DROPOFF. -/
def input_weird_trip : InputData := { input_ex with trip_type := "transfer" }

/-- A 3-location request with both a fixed start and a fixed end index set. -/
def input_both_fixed : InputData :=
  { distance_matrix :=
      [[some 0, some 10, some 20], [some 10, some 0, some 5], [some 20, some 5, some 0]]
    duration_matrix := none
    demands := [0, 1, 1]
    vehicle_capacities := [5]
    num_vehicles := 1
    depot_index := 0
    max_route_duration := none
    service_times := none
    allow_dropping_visits := false
    drop_visit_penalty := 5000000
    trip_type := "DROPOFF"
    direction_penalty_weight := 1
    fixed_start_node_index_in_matrix := some 1
    fixed_end_node_index_in_matrix := some 2
    other_customer_node_indices_in_matrix := some [1] }

/-! Shared lemmas. -/

theorem pround_intCast (n : Int) : pround ((n : ℚ)) = n := by
  have h0 : ((n : ℚ)) - ((⌊(n : ℚ)⌋ : Int) : ℚ) = 0 := by
    rw [Int.floor_intCast]; ring
  unfold pround
  rw [h0, Int.floor_intCast]
  norm_num

theorem floor_le_pround (q : ℚ) : ⌊q⌋ ≤ pround q := by
  unfold pround
  split_ifs <;> omega

theorem direction_penalty_nonneg (dm : DataModel) (u v : Nat) :
    0 ≤ direction_penalty dm u v := by
  unfold direction_penalty
  rcases h1 : mentry dm.distance_matrix u dm.depot with _ | a <;>
    rcases h2 : mentry dm.distance_matrix v dm.depot with _ | b <;>
    simp only [h1, h2] <;>
    split_ifs <;>
    first
      | exact le_refl 0
      | · rename_i hg _ hd
          have hw : 0 < dm.direction_penalty_weight := hg.2.2
          have hc : (0 : ℚ) < ((b - a : Int) : ℚ) := by exact_mod_cast hd
          positivity
      | · rename_i hg _ _ hd
          have hw : 0 < dm.direction_penalty_weight := hg.2.2
          have hc : (0 : ℚ) < ((a - b : Int) : ℚ) := by exact_mod_cast hd
          positivity

theorem mentry_eq_some_of_square {m : List (List Int)}
    (hsq : ∀ row ∈ m, row.length = m.length) {i j : Nat}
    (hi : i < m.length) (hj : j < m.length) :
    mentry m i j = some ((m.get ⟨i, hi⟩).get ⟨j, by rw [hsq _ (m.get_mem i hi)]; exact hj⟩) := by
  unfold mentry
  rw [List.get?_eq_get hi]
  simp [List.get?_eq_get]

theorem entry_le_arc_cost (dm : DataModel) (u v : Nat)
    (hu : u < dm.distance_matrix.length) (hv : v < dm.distance_matrix.length) :
    (mentry dm.distance_matrix u v).getD 0
      ≤ distance_with_direction_penalty_callback dm u v := by
  unfold distance_with_direction_penalty_callback
  rw [if_neg (by push_neg; exact ⟨hu, hv⟩)]
  set b : Int := (mentry dm.distance_matrix u v).getD 0 with hb
  have hp : 0 ≤ direction_penalty dm u v := direction_penalty_nonneg dm u v
  have h1 : b ≤ ⌊(b : ℚ) + direction_penalty dm u v⌋ := by
    rw [Int.le_floor]
    linarith
  exact le_trans h1 (floor_le_pround _)

theorem create_data_model_isOk_iff (input : InputData) :
    (create_data_model input).isOk = true ↔ valid_input input := by
  unfold create_data_model valid_input
  split_ifs with h1 h2 h3 h4 h5 h6 h7 <;>
    simp only [Except.isOk, Except.toBool, Bool.false_eq_true, false_iff, true_iff]
  all_goals first
    | exact fun hv => h1.2 (hv.1 h1.1).1
    | exact fun hv => h2.2 (hv.1 h2.1).2.1
    | exact fun hv => h3.2 (hv.1 h3.1).2.2
    | exact fun hv => h4.2 (hv.2.1 h4.1)
    | exact fun hv => h5 hv.2.2.1
    | exact fun hv => h6 hv.2.2.2.1
    | exact fun hv => h7.2 (hv.2.2.2.2 h7.1)
    | exact ⟨fun hl => ⟨not_not.mp (not_and.mp h1 hl), not_not.mp (not_and.mp h2 hl),
              not_not.mp (not_and.mp h3 hl)⟩,
            fun hV => not_not.mp (not_and.mp h4 hV), h5, h6,
            fun hs => not_not.mp (not_and.mp h7 hs)⟩

theorem create_data_model_ok_eq {input : InputData} {dm : DataModel}
    (h : create_data_model input = Except.ok dm) : dm = mk_data_model input := by
  unfold create_data_model at h
  split_ifs at h
  simp_all

theorem valid_of_create_ok {input : InputData} {dm : DataModel}
    (h : create_data_model input = Except.ok dm) : valid_input input := by
  rw [← create_data_model_isOk_iff]
  rw [h]
  rfl

theorem mem_ite_list {α : Type} {P : Prop} [Decidable P] {x : α} {l : List α} :
    (x ∈ (if P then l else [])) ↔ P ∧ x ∈ l := by
  split_ifs with h <;> simp [h]

theorem mem_join_map {α β : Type} (f : α → List β) (l : List α) (b : β) :
    b ∈ (l.map f).join ↔ ∃ a ∈ l, b ∈ f a := by
  rw [List.mem_join]
  constructor
  · rintro ⟨bl, hbl, hb⟩
    rw [List.mem_map] at hbl
    obtain ⟨a, ha, rfl⟩ := hbl
    exact ⟨a, ha, hb⟩
  · rintro ⟨a, ha, hb⟩
    exact ⟨f a, List.mem_map_of_mem f ha, hb⟩

theorem build_pinning_start {dm : DataModel} {s : Int}
    (hs : dm.fixed_start_node_index_in_matrix = some s)
    (h0 : 0 ≤ s) (hN : s < (dm.distance_matrix.length : Int)) :
    build_pinning_constraints dm =
      [PinConstraint.nextEq dm.depot s.toNat,
       PinConstraint.vehicleEq s.toNat 0,
       PinConstraint.vehicleEq dm.depot 0] := by
  simp only [build_pinning_constraints, hs]
  rw [if_pos ⟨h0, hN⟩]

theorem build_pinning_none {dm : DataModel}
    (hs : dm.fixed_start_node_index_in_matrix = none)
    (he : dm.fixed_end_node_index_in_matrix = none) :
    build_pinning_constraints dm = [] := by
  simp only [build_pinning_constraints, hs, he]

theorem build_pinning_end_mem {dm : DataModel} {e : Int}
    (hs : dm.fixed_start_node_index_in_matrix = none)
    (he : dm.fixed_end_node_index_in_matrix = some e)
    (h0 : 0 ≤ e) (hN : e < (dm.distance_matrix.length : Int)) (c : PinConstraint) :
    c ∈ build_pinning_constraints dm ↔
      (c = PinConstraint.nextEq e.toNat dm.depot ∨
       c = PinConstraint.vehicleEq e.toNat 0 ∨
       c = PinConstraint.vehicleEq dm.depot 0 ∨
       ∃ idx ∈ dm.other_customer_node_indices_in_matrix.getD [],
         (0 ≤ idx ∧ idx < (dm.distance_matrix.length : Int) ∧ idx ≠ e) ∧
         (c = PinConstraint.nextNe idx.toNat dm.depot ∨
          c = PinConstraint.vehicleEq idx.toNat 0)) := by
  simp only [build_pinning_constraints, hs, he]
  rw [if_pos ⟨h0, hN⟩]
  simp only [List.mem_append, List.mem_cons, List.not_mem_nil, or_false, mem_join_map,
    mem_ite_list]
  aesop

theorem decode_routes_join (dm : DataModel) (walks : List (List Nat)) :
    (decode_routes dm walks).join = served_customers dm walks := by
  unfold decode_routes served_customers
  generalize walks.map (fun w => w.filter (fun n => n ≠ dm.depot)) = l
  induction l with
  | nil => rfl
  | cons a t ih =>
    by_cases h : a = []
    · subst h
      simpa using ih
    · simp only [List.filter_cons, List.join_cons]
      rw [if_pos (by simpa using h)]
      simpa using ih

theorem ne_depot_of_mem_served {dm : DataModel} {walks : List (List Nat)} {i : Nat}
    (h : i ∈ served_customers dm walks) : i ≠ dm.depot := by
  unfold served_customers at h
  rw [List.mem_join] at h
  obtain ⟨bl, hbl, hi⟩ := h
  rw [List.mem_map] at hbl
  obtain ⟨w, _, rfl⟩ := hbl
  simpa using List.of_mem_filter hi

theorem mem_decode_dropped_iff (dm : DataModel) (routes : List (List Nat)) (i : Nat) :
    i ∈ decode_dropped dm routes ↔
      dm.allow_dropping_visits = true ∧ i < dm.distance_matrix.length ∧
        i ≠ dm.depot ∧ ¬ ∃ r ∈ routes, i ∈ r := by
  unfold decode_dropped
  split_ifs with h
  · simp [List.mem_filter, List.mem_range, h, List.any_eq_true]
  · simp [h]

theorem decode_dropped_nodup (dm : DataModel) (routes : List (List Nat)) :
    (decode_dropped dm routes).Nodup := by
  unfold decode_dropped
  split_ifs
  · exact (List.nodup_range _).filter _
  · exact List.nodup_nil

theorem mem_no_solution_dropped_iff (dm : DataModel) (i : Nat)
    (h : dm.allow_dropping_visits = true ∨ 1 < dm.distance_matrix.length) :
    i ∈ (decode_no_solution dm).dropped_node_indices ↔
      i < dm.distance_matrix.length ∧ i ≠ dm.depot := by
  unfold decode_no_solution
  rcases h with h | h
  · simp [h, List.mem_filter, List.mem_range]
  · split_ifs with ha
    · simp [List.mem_filter, List.mem_range]
    · simp [h, List.mem_filter, List.mem_range]

theorem no_solution_dropped_nodup (dm : DataModel) :
    (decode_no_solution dm).dropped_node_indices.Nodup := by
  unfold decode_no_solution
  split_ifs
  · exact (List.nodup_range _).filter _
  · exact (List.nodup_range _).filter _
  · exact List.nodup_nil

theorem opt_index_ok_some {N : Nat} {s : Int} :
    opt_index_ok N (some s) ↔ 0 ≤ s ∧ s < (N : Int) := Iff.rfl

theorem direction_penalty_eq_zero_of_unknown_trip {dm : DataModel} (u v : Nat)
    (hp : dm.trip_type ≠ "PICKUP") (hd : dm.trip_type ≠ "DROPOFF") :
    direction_penalty dm u v = 0 := by
  unfold direction_penalty
  rcases h1 : mentry dm.distance_matrix u dm.depot with _ | a <;>
    rcases h2 : mentry dm.distance_matrix v dm.depot with _ | b <;>
    split_ifs <;>
    simp [h1, h2, hp, hd]

theorem arc_cost_eq_entry_of_zero_penalty {dm : DataModel} {u v : Nat}
    (hu : u < dm.distance_matrix.length) (hv : v < dm.distance_matrix.length)
    (hpen : direction_penalty dm u v = 0) :
    distance_with_direction_penalty_callback dm u v
      = (mentry dm.distance_matrix u v).getD 0 := by
  unfold distance_with_direction_penalty_callback
  rw [if_neg (by push_neg; exact ⟨hu, hv⟩), hpen, add_zero, pround_intCast]

/-! Claim theorems. -/

/-- C1: for every pair of in-range node indices `(u, v)` the registered
arc-cost function returns `round(CostMatrix[u][v] + penalty)`, where the
penalty is 0 whenever `u` is the depot, `v` is the depot, or the weight is
nonpositive, and otherwise is the weight times the positive part of the
depot-distance difference, oriented by trip type (PICKUP: `d_v - d_u`,
DROPOFF: `d_u - d_v`). -/
theorem arc_cost_matches_spec_formula (dm : DataModel) (u v : Nat)
    (hsq : ∀ row ∈ dm.distance_matrix, row.length = dm.distance_matrix.length)
    (hu : u < dm.distance_matrix.length) (hv : v < dm.distance_matrix.length)
    (hdep : dm.depot < dm.distance_matrix.length)
    (htrip : dm.trip_type = "PICKUP" ∨ dm.trip_type = "DROPOFF") :
    distance_with_direction_penalty_callback dm u v = spec_arc_cost dm u v := by
  have ha := mentry_eq_some_of_square hsq hu hdep
  have hb := mentry_eq_some_of_square hsq hv hdep
  have hpen : direction_penalty dm u v = spec_direction_penalty dm u v := by
    unfold direction_penalty spec_direction_penalty
    by_cases hg : u = dm.depot ∨ v = dm.depot ∨ dm.direction_penalty_weight ≤ 0
    · rw [if_pos hg, if_neg (by
        rintro ⟨h1, h2, h3⟩
        rcases hg with h | h | h
        · exact h1 h
        · exact h2 h
        · exact absurd h3 (not_lt.mpr h))]
    · have hg2 := hg
      push_neg at hg2
      rw [if_neg hg, if_pos hg2]
      simp only [ha, hb, Option.getD_some]
      rcases htrip with h | h
      · simp [h]
      · simp [h]
  unfold distance_with_direction_penalty_callback spec_arc_cost
  rw [if_neg (by push_neg; exact ⟨hu, hv⟩), hpen]

/-- Witness for C1 at a concrete model (`u = 1`, `v = 2`, PICKUP). -/
theorem arc_cost_matches_spec_formula_witness :
    distance_with_direction_penalty_callback dm_ex 1 2 = spec_arc_cost dm_ex 1 2 :=
  arc_cost_matches_spec_formula dm_ex 1 2 (by decide) (by decide) (by decide) (by decide)
    (Or.inl rfl)

/-- C5: the direction-penalty sign property: for PICKUP trips, an arc whose
head is strictly farther from the depot than its tail costs at least the raw
matrix entry; for DROPOFF trips, symmetric with strictly closer. -/
theorem arc_cost_ge_base_directional (dm : DataModel) (u v : Nat)
    (hu : u < dm.distance_matrix.length) (hv : v < dm.distance_matrix.length) :
    (dm.trip_type = "PICKUP" →
      (mentry dm.distance_matrix u dm.depot).getD 0
          < (mentry dm.distance_matrix v dm.depot).getD 0 →
      (mentry dm.distance_matrix u v).getD 0
        ≤ distance_with_direction_penalty_callback dm u v) ∧
    (dm.trip_type = "DROPOFF" →
      (mentry dm.distance_matrix v dm.depot).getD 0
          < (mentry dm.distance_matrix u dm.depot).getD 0 →
      (mentry dm.distance_matrix u v).getD 0
        ≤ distance_with_direction_penalty_callback dm u v) :=
  ⟨fun _ _ => entry_le_arc_cost dm u v hu hv, fun _ _ => entry_le_arc_cost dm u v hu hv⟩

/-- Witness for C5 at a concrete model (`u = 1`, `v = 2`: node 2 is farther
from the depot than node 1). -/
theorem arc_cost_ge_base_directional_witness :
    (mentry dm_ex.distance_matrix 1 2).getD 0
      ≤ distance_with_direction_penalty_callback dm_ex 1 2 :=
  (arc_cost_ge_base_directional dm_ex 1 2 (by decide) (by decide)).1 rfl (by decide)

/-- C8 counterexample: at the out-of-range node index 5 the demand callback
returns 999999, not the claimed sentinel `LARGE_PENALTY = 999999999`. -/
theorem demand_callback_small_sentinel_example :
    demand_callback dm_ex 5 = 999999 ∧ demand_callback dm_ex 5 ≠ 999999999 := by
  decide

/-- C8 amended: on an out-of-range node index the duration-dimension callback
returns `LARGE_PENALTY = 999999999`, while the demand callback returns the
smaller sentinel `999999`. -/
theorem callbacks_out_of_range_sentinels (dm : DataModel) (u v w : Nat)
    (hw : ¬ w < dm.demands.length)
    (huv : ¬ (u < dm.distance_matrix.length ∧ v < dm.distance_matrix.length)) :
    demand_callback dm w = 999999 ∧
    service_plus_travel_for_dimension_callback dm u v = 999999999 := by
  unfold demand_callback service_plus_travel_for_dimension_callback
  rw [if_pos hw, if_pos huv]
  exact ⟨rfl, rfl⟩

/-- Witness for the amended C8 at concrete out-of-range indices. -/
theorem callbacks_out_of_range_sentinels_witness :
    demand_callback dm_ex 9 = 999999 ∧
    service_plus_travel_for_dimension_callback dm_ex 7 0 = 999999999 :=
  callbacks_out_of_range_sentinels dm_ex 7 0 9 (by decide) (by decide)

/-- C9: a trip type whose upper-cased form is neither PICKUP nor DROPOFF is
accepted without any validation error (validation is independent of the trip
type), and the arc-cost function then applies no direction penalty: it returns
exactly `CostMatrix[u][v]` for every pair of in-range nodes. -/
theorem unknown_trip_type_pure_distance (input : InputData) (dm : DataModel) (u v : Nat)
    (hok : create_data_model input = Except.ok dm)
    (hp : py_upper input.trip_type ≠ "PICKUP")
    (hd : py_upper input.trip_type ≠ "DROPOFF")
    (hu : u < dm.distance_matrix.length) (hv : v < dm.distance_matrix.length) :
    distance_with_direction_penalty_callback dm u v
        = (mentry dm.distance_matrix u v).getD 0 ∧
    ∀ s : String,
      (create_data_model { input with trip_type := s }).isOk
        = (create_data_model input).isOk := by
  have hdm := create_data_model_ok_eq hok
  have htt : dm.trip_type = py_upper input.trip_type := by
    rw [hdm]
    rfl
  refine ⟨?_, ?_⟩
  · exact arc_cost_eq_entry_of_zero_penalty hu hv
      (direction_penalty_eq_zero_of_unknown_trip u v (htt ▸ hp) (htt ▸ hd))
  · intro s
    have hvv : valid_input { input with trip_type := s } ↔ valid_input input := by
      unfold valid_input mk_data_model
      exact Iff.rfl
    have e1 := create_data_model_isOk_iff { input with trip_type := s }
    have e2 := create_data_model_isOk_iff input
    by_cases hval : valid_input input
    · rw [e1.mpr (hvv.mpr hval), e2.mpr hval]
    · have b1 : (create_data_model { input with trip_type := s }).isOk = false := by
        cases h : (create_data_model { input with trip_type := s }).isOk
        · rfl
        · exact absurd (hvv.mp (e1.mp h)) hval
      have b2 : (create_data_model input).isOk = false := by
        cases h : (create_data_model input).isOk
        · rfl
        · exact absurd (e2.mp h) hval
      rw [b1, b2]

/-- Witness for C9 at a concrete request with trip type "transfer". -/
theorem unknown_trip_type_pure_distance_witness :
    distance_with_direction_penalty_callback (mk_data_model input_weird_trip) 0 1
      = (mentry (mk_data_model input_weird_trip).distance_matrix 0 1).getD 0 :=
  (unknown_trip_type_pure_distance input_weird_trip (mk_data_model input_weird_trip) 0 1
    (by rfl) (by decide) (by decide) (by decide) (by decide)).1

/-- C7 counterexample: a request whose fixed start index equals the depot
index (0) passes validation, although the claim requires it to be rejected. -/
theorem fixed_start_at_depot_accepted :
    input_fixed_start_depot.fixed_start_node_index_in_matrix
        = some (input_fixed_start_depot.depot_index : Int) ∧
    (create_data_model input_fixed_start_depot).isOk = true := by
  exact ⟨rfl, by decide⟩

/-- C7 amended: validation fails exactly when a shape check fails or a fixed
index (or, when the fixed end index is set, an entry of
`other_customer_node_indices_in_matrix`) is outside `[0, N)`; an index equal to
the depot is accepted, and the other-customer entries are not checked when the
fixed end index is unset. -/
theorem validation_is_pure_range_check (input : InputData) :
    (create_data_model input).isOk = true ↔ valid_input input :=
  create_data_model_isOk_iff input

/-- C2: the pinning constraints are exactly as specified: for an in-range
fixed start, the depot's successor equals it and both nodes sit on vehicle 0;
else for an in-range fixed end, its successor is the depot, both sit on
vehicle 0, and every in-range other customer distinct from the fixed end is
forbidden from preceding the depot and sits on vehicle 0; with neither set,
no constraint is added. -/
theorem pinning_constraints_as_specified (dm : DataModel) :
    (∀ s : Int, dm.fixed_start_node_index_in_matrix = some s →
      0 ≤ s → s < (dm.distance_matrix.length : Int) →
      build_pinning_constraints dm =
        [PinConstraint.nextEq dm.depot s.toNat,
         PinConstraint.vehicleEq s.toNat 0,
         PinConstraint.vehicleEq dm.depot 0]) ∧
    (dm.fixed_start_node_index_in_matrix = none →
      ∀ e : Int, dm.fixed_end_node_index_in_matrix = some e →
      0 ≤ e → e < (dm.distance_matrix.length : Int) →
      ∀ c : PinConstraint,
        (c ∈ build_pinning_constraints dm ↔
          (c = PinConstraint.nextEq e.toNat dm.depot ∨
           c = PinConstraint.vehicleEq e.toNat 0 ∨
           c = PinConstraint.vehicleEq dm.depot 0 ∨
           ∃ idx ∈ dm.other_customer_node_indices_in_matrix.getD [],
             (0 ≤ idx ∧ idx < (dm.distance_matrix.length : Int) ∧ idx ≠ e) ∧
             (c = PinConstraint.nextNe idx.toNat dm.depot ∨
              c = PinConstraint.vehicleEq idx.toNat 0)))) ∧
    (dm.fixed_start_node_index_in_matrix = none →
      dm.fixed_end_node_index_in_matrix = none →
      build_pinning_constraints dm = []) :=
  ⟨fun _ hs h0 hN => build_pinning_start hs h0 hN,
   fun hs _ he h0 hN c => build_pinning_end_mem hs he h0 hN c,
   fun hs he => build_pinning_none hs he⟩

/-- Witness for C2 at a concrete model with fixed start node 1. -/
theorem pinning_constraints_as_specified_witness :
    build_pinning_constraints dm_ex_pin =
      [PinConstraint.nextEq dm_ex_pin.depot (1 : Int).toNat,
       PinConstraint.vehicleEq (1 : Int).toNat 0,
       PinConstraint.vehicleEq dm_ex_pin.depot 0] :=
  (pinning_constraints_as_specified dm_ex_pin).1 1 rfl (by decide) (by decide)

/-- C10: with both fixed indices set no error is raised (validity is
unaffected), the fixed-start constraints are the only pinning constraints
posted (the fixed-end block, including all other-customer constraints, is
skipped), yet the fixed end index and the other-customer indices are still
range-validated. -/
theorem both_fixed_set_start_wins (input : InputData) (s e : Int)
    (hs : input.fixed_start_node_index_in_matrix = some s)
    (he : input.fixed_end_node_index_in_matrix = some e) :
    (valid_input input → (create_data_model input).isOk = true) ∧
    (∀ dm, create_data_model input = Except.ok dm →
      build_pinning_constraints dm =
        [PinConstraint.nextEq dm.depot s.toNat,
         PinConstraint.vehicleEq s.toNat 0,
         PinConstraint.vehicleEq dm.depot 0]) ∧
    (¬ (0 ≤ e ∧ e < ((mk_data_model input).distance_matrix.length : Int)) →
      (create_data_model input).isOk = false) ∧
    (∀ l idx, input.other_customer_node_indices_in_matrix = some l → idx ∈ l →
      ¬ (0 ≤ idx ∧ idx < ((mk_data_model input).distance_matrix.length : Int)) →
      (create_data_model input).isOk = false) := by
  have hfsmk : (mk_data_model input).fixed_start_node_index_in_matrix = some s := by
    simp [mk_data_model, hs]
  have hfemk : (mk_data_model input).fixed_end_node_index_in_matrix = some e := by
    simp [mk_data_model, he]
  refine ⟨(create_data_model_isOk_iff input).mpr, ?_, ?_, ?_⟩
  · intro dm hok
    have hval := valid_of_create_ok hok
    have hdm := create_data_model_ok_eq hok
    subst hdm
    have hrange := hval.2.2.1
    rw [hfsmk, opt_index_ok_some] at hrange
    exact build_pinning_start hfsmk hrange.1 hrange.2
  · intro hbad
    cases h : (create_data_model input).isOk
    · rfl
    · have hval := (create_data_model_isOk_iff input).mp h
      have hrange := hval.2.2.2.1
      rw [hfemk, opt_index_ok_some] at hrange
      exact absurd hrange hbad
  · intro l idx hl hidx hbad
    cases h : (create_data_model input).isOk
    · rfl
    · have hval := (create_data_model_isOk_iff input).mp h
      have hsome : (mk_data_model input).fixed_end_node_index_in_matrix.isSome = true := by
        rw [hfemk]; rfl
      have hoth := hval.2.2.2.2 hsome
      have hlmk : (mk_data_model input).other_customer_node_indices_in_matrix.getD [] = l := by
        simp [mk_data_model, hl]
      rw [hlmk] at hoth
      exact absurd (hoth idx hidx) hbad

/-- Witness for C10 at a concrete request with fixed start 1 and fixed end 2. -/
theorem both_fixed_set_start_wins_witness :
    (create_data_model input_both_fixed).isOk = true ∧
    build_pinning_constraints (mk_data_model input_both_fixed) =
      [PinConstraint.nextEq (mk_data_model input_both_fixed).depot (1 : Int).toNat,
       PinConstraint.vehicleEq (1 : Int).toNat 0,
       PinConstraint.vehicleEq (mk_data_model input_both_fixed).depot 0] :=
  ⟨(both_fixed_set_start_wins input_both_fixed 1 2 rfl rfl).1 (by decide),
   (both_fixed_set_start_wins input_both_fixed 1 2 rfl rfl).2.1
     (mk_data_model input_both_fixed) (by rfl)⟩

/-- C3: when the engine returns no assignment and there is at least one
customer, the solver returns a normal result (no error, no exception) with an
empty route list and with every non-depot node index appearing exactly once in
`dropped_node_indices`, regardless of `allow_dropping_visits`. -/
theorem no_assignment_full_drop (dm : DataModel)
    (hN : 1 < dm.distance_matrix.length) (hV : 0 < dm.num_vehicles) :
    (solve_cvrptw dm none).error = none ∧
    (solve_cvrptw dm none).routes = [] ∧
    (∀ i, i < dm.distance_matrix.length → i ≠ dm.depot →
      (solve_cvrptw dm none).dropped_node_indices.count i = 1) ∧
    (∀ i, i ∈ (solve_cvrptw dm none).dropped_node_indices →
      i < dm.distance_matrix.length ∧ i ≠ dm.depot) := by
  have hsolve : solve_cvrptw dm none = decode_no_solution dm := by
    unfold solve_cvrptw
    rw [if_neg (by omega), if_neg (by rintro ⟨h0, _⟩; omega)]
  rw [hsolve]
  refine ⟨?_, ?_, ?_, ?_⟩
  · unfold decode_no_solution
    split_ifs <;> rfl
  · unfold decode_no_solution
    split_ifs <;> rfl
  · intro i hi hne
    exact List.count_eq_one_of_mem (no_solution_dropped_nodup dm)
      ((mem_no_solution_dropped_iff dm i (Or.inr hN)).mpr ⟨hi, hne⟩)
  · intro i hi
    exact (mem_no_solution_dropped_iff dm i (Or.inr hN)).mp hi

/-- Witness for C3 at a concrete 3-location model. -/
theorem no_assignment_full_drop_witness :
    (solve_cvrptw dm_ex none).routes = [] ∧
    (solve_cvrptw dm_ex none).dropped_node_indices.count 2 = 1 :=
  ⟨(no_assignment_full_drop dm_ex (by decide) (by decide)).2.1,
   (no_assignment_full_drop dm_ex (by decide) (by decide)).2.2.1 2 (by decide) (by decide)⟩

/-- C6 counterexample: for a concrete successfully decoded request, the
serialized `routes` field contains the bare array `[2, 1]`, which is not an
object (so not of the `{vehicle_index, node_indices}` form the claim asserts). -/
theorem routes_encoded_as_bare_array_example :
    encode_result (solve_cvrptw dm_ex_nodrop (some [[0, 2, 1]])) =
      JVal.obj
        [("routes", JVal.arr [JVal.arr [JVal.num 2, JVal.num 1]]),
         ("dropped_node_indices", JVal.arr [])] ∧
    JVal.isObj (JVal.arr [JVal.num 2, JVal.num 1]) = false :=
  ⟨rfl, rfl⟩

/-- C6 amended: in the serialized response, every element of the `routes`
array is a bare JSON array of node indices (the legacy form), never an
object. -/
theorem routes_encoded_as_bare_arrays (r : SolveResult) :
    ∃ rs ds : List JVal,
      encode_result r =
        JVal.obj [("routes", JVal.arr rs), ("dropped_node_indices", JVal.arr ds)] ∧
      ∀ x ∈ rs,
        (∃ ns : List Nat, x = JVal.arr (ns.map (fun n => JVal.num (n : Int)))) ∧
        JVal.isObj x = false := by
  unfold encode_result
  refine ⟨_, _, rfl, ?_⟩
  intro x hx
  rw [List.mem_map] at hx
  obtain ⟨route, _, rfl⟩ := hx
  exact ⟨⟨route, rfl⟩, rfl⟩

/-- C4: for every request the solver decodes (engine success or failure),
under the engine contract — served indices are in range, no customer is served
twice, and with dropping disallowed every customer is served — each non-depot
node index appears exactly once across the output routes and
`dropped_node_indices` together, and nothing else appears there. -/
theorem decode_partitions_customers (dm : DataModel) (engine : Option (List (List Nat)))
    (hV : 0 < dm.num_vehicles)
    (hdep : dm.distance_matrix.length = 0 ∨ dm.depot < dm.distance_matrix.length)
    (heng : ∀ walks, engine = some walks →
      (served_customers dm walks).Nodup ∧
      (∀ i ∈ served_customers dm walks, i < dm.distance_matrix.length) ∧
      (dm.allow_dropping_visits = false → ∀ i, i < dm.distance_matrix.length →
        i ≠ dm.depot → i ∈ served_customers dm walks)) :
    (∀ i, i < dm.distance_matrix.length → i ≠ dm.depot →
      (solve_cvrptw dm engine).routes.join.count i
        + (solve_cvrptw dm engine).dropped_node_indices.count i = 1) ∧
    (∀ i, i ∈ (solve_cvrptw dm engine).routes.join ∨
        i ∈ (solve_cvrptw dm engine).dropped_node_indices →
      i < dm.distance_matrix.length ∧ i ≠ dm.depot) := by
  by_cases hN0 : dm.distance_matrix.length = 0
  · unfold solve_cvrptw
    rw [if_pos hN0]
    constructor
    · intro i hi _
      omega
    · intro i hi
      rcases hi with hi | hi <;> simp at hi
  · have h2 : ¬ (dm.num_vehicles = 0 ∧ 1 < dm.distance_matrix.length) := by
      rintro ⟨h0, _⟩
      omega
    unfold solve_cvrptw
    rw [if_neg hN0, if_neg h2]
    cases engine with
    | none =>
      by_cases hbig : dm.allow_dropping_visits = true ∨ 1 < dm.distance_matrix.length
      · have hr : (decode_no_solution dm).routes = [] := by
          unfold decode_no_solution
          split_ifs <;> rfl
        constructor
        · intro i hi hne
          rw [hr]
          have hc := List.count_eq_one_of_mem (no_solution_dropped_nodup dm)
            ((mem_no_solution_dropped_iff dm i hbig).mpr ⟨hi, hne⟩)
          simpa using hc
        · intro i hi
          rcases hi with hi | hi
          · rw [hr] at hi
            simp at hi
          · exact (mem_no_solution_dropped_iff dm i hbig).mp hi
      · push_neg at hbig
        have hempty : decode_no_solution dm =
            { routes := [], dropped_node_indices := [], error := none } := by
          unfold decode_no_solution
          rw [if_neg (by simp [hbig.1]), if_neg (by omega)]
        rw [hempty]
        have hN1 : dm.distance_matrix.length = 1 := by omega
        have hdep0 : dm.depot = 0 := by
          rcases hdep with h | h
          · omega
          · omega
        constructor
        · intro i hi hne
          omega
        · intro i hi
          rcases hi with hi | hi <;> simp at hi
    | some walks =>
      obtain ⟨hnd, hlt, hall⟩ := heng walks rfl
      have hrts : (decode_solution dm walks).routes = decode_routes dm walks := rfl
      have hdrp : (decode_solution dm walks).dropped_node_indices
          = decode_dropped dm (decode_routes dm walks) := rfl
      have hjoin : (decode_routes dm walks).join = served_customers dm walks :=
        decode_routes_join dm walks
      constructor
      · intro i hi hne
        rw [hrts, hdrp]
        by_cases hmem : i ∈ served_customers dm walks
        · have c1 : (decode_routes dm walks).join.count i = 1 := by
            rw [hjoin]
            exact List.count_eq_one_of_mem hnd hmem
          have c2 : (decode_dropped dm (decode_routes dm walks)).count i = 0 := by
            apply List.count_eq_zero.mpr
            intro hcontra
            have hmem2 : i ∈ (decode_routes dm walks).join := by
              rw [hjoin]
              exact hmem
            exact ((mem_decode_dropped_iff dm _ i).mp hcontra).2.2.2
              (List.mem_join.mp hmem2)
          rw [c1, c2]
        · have c1 : (decode_routes dm walks).join.count i = 0 := by
            rw [hjoin]
            exact List.count_eq_zero.mpr hmem
          cases hallow : dm.allow_dropping_visits with
          | false => exact absurd (hall hallow i hi hne) hmem
          | true =>
            have c2 : (decode_dropped dm (decode_routes dm walks)).count i = 1 := by
              apply List.count_eq_one_of_mem (decode_dropped_nodup dm _)
              refine (mem_decode_dropped_iff dm _ i).mpr ⟨hallow, hi, hne, ?_⟩
              rintro ⟨r, hrm, hir⟩
              have hj : i ∈ (decode_routes dm walks).join := List.mem_join.mpr ⟨r, hrm, hir⟩
              rw [hjoin] at hj
              exact hmem hj
            rw [c1, c2]
      · intro i hi
        rw [hrts, hdrp] at hi
        rcases hi with hi | hi
        · rw [hjoin] at hi
          exact ⟨hlt i hi, ne_depot_of_mem_served hi⟩
        · have h := (mem_decode_dropped_iff dm _ i).mp hi
          exact ⟨h.2.1, h.2.2.1⟩

/-- Witness for C4 at a concrete model with a successful engine assignment
serving customer 1 and dropping customer 2. -/
theorem decode_partitions_customers_witness :
    (solve_cvrptw dm_ex (some [[0, 1]])).routes.join.count 2
      + (solve_cvrptw dm_ex (some [[0, 1]])).dropped_node_indices.count 2 = 1 :=
  (decode_partitions_customers dm_ex (some [[0, 1]]) (by decide) (by decide)
    (by
      intro walks hw
      injection hw with hw
      subst hw
      exact ⟨by decide, by decide, by decide⟩)).1 2 (by decide) (by decide)

/-- Witness for the amended C6 at a concrete result. -/
theorem routes_encoded_as_bare_arrays_witness :
    JVal.isObj (JVal.arr [JVal.num 2, JVal.num 1]) = false := by
  obtain ⟨rs, ds, henc, hall⟩ :=
    routes_encoded_as_bare_arrays
      { routes := [[2, 1]], dropped_node_indices := [], error := none }
  have h0 : encode_result
      { routes := [[2, 1]], dropped_node_indices := [], error := none } =
      JVal.obj
        [("routes", JVal.arr [JVal.arr [JVal.num 2, JVal.num 1]]),
         ("dropped_node_indices", JVal.arr [])] := rfl
  rw [h0] at henc
  simp only [JVal.obj.injEq, List.cons.injEq, Prod.mk.injEq, JVal.arr.injEq,
    and_true, true_and] at henc
  exact (hall (JVal.arr [JVal.num 2, JVal.num 1])
    (by rw [← henc.1]; exact List.mem_singleton.mpr rfl)).2
